import Mathlib

/-!
Verification of the response writer `writer.go` of the psql-wire
repository.  The writer streams query results to a Postgres client: it
holds a column spec, a list of format codes, a `closed` flag and a
`written` row counter, and emits tagged wire messages through a frame
sink (the `buffer.Writer`).

The embedding below is a shallow one.  External collaborators are
modelled by oracles passed to each operation:

* the row codec (`Columns.Define` / `Columns.Write`) may fail; its
  outcome is an `Option Nat` argument (`none` = success, `some e` =
  a codec error carrying an opaque identifier `e`);
* the frame sink's `End()` may fail; its outcome is likewise an
  `Option Nat` argument.

Messages emitted by the writer itself are modelled bit-exactly as a
tag plus a payload byte list; messages delegated to the row codec are
modelled abstractly, as their construction lives outside this file's
source.  `written` is a Go `uint64`, so increments are taken modulo
2^64.
-/

/-- Server message tags used by the writer (from `pkg/types`).
Modelled from the spec: the concrete tag byte values live outside the
given source; each tag is "a fixed identifying byte prefixing each
protocol message". -/
inductive MsgTag where
  | serverCommandComplete
  | serverCopyInResponse
  deriving DecidableEq, Repr

/-- A message appended to the connection's outgoing stream.
Modelled from the spec: the frame sink (`pkg/buffer`) wraps each
message built between `Start` and `End` in its standard
length-prefixed envelope; `Msg.frame tag payload` stands for that
envelope around the given tag byte and payload bytes.  `colDesc` and
`dataRow` stand for the messages whose encoding is delegated to the
row codec (`Columns.Define` / `Columns.Write`). -/
inductive Msg where
  | frame (tag : MsgTag) (payload : List Nat)
  | colDesc
  | dataRow
  deriving DecidableEq, Repr

/-- Errors returned by writer operations: the two sentinel errors of
`writer.go` (`ErrClosedWriter`, `ErrDataWritten`) and propagated
collaborator errors (`ext e`, carrying an opaque identifier). -/
inductive Err where
  | closedWriter
  | dataWritten
  | ext (e : Nat)
  deriving DecidableEq, Repr

/-- The `dataWriter` struct of `writer.go`.  `columns` is a Go slice
that may be `nil` (`none` here); its elements are opaque.  `formats`
is likewise opaque.  `written` is the value of the `uint64` counter
(kept below 2^64 by the operations). -/
structure DataWriter where
  columns : Option (List Nat)
  formats : List Nat
  closed : Bool
  written : Nat
  deriving DecidableEq, Repr

/-- `NewDataWriter` of `writer.go`: fresh writer, open, zero rows. -/
def NewDataWriter (columns : Option (List Nat)) (formats : List Nat) : DataWriter :=
  { columns := columns, formats := formats, closed := false, written := 0 }

/-- The result of one writer operation: the returned error (if any),
the writer's new state, and the messages the call appended to the
outgoing stream. -/
structure StepResult where
  err : Option Err
  state : DataWriter
  out : List Msg
  deriving DecidableEq, Repr

/-- Modelled from the spec: the frame sink's `AddInt16` appends a
16-bit integer as two bytes, most significant first (the wire
protocol is big-endian); `pkg/buffer` is outside the given source. -/
def addInt16 (n : Nat) : List Nat :=
  [n / 256 % 256, n % 256]

/-- `Define` of `writer.go`: refuse when closed, otherwise overwrite
the stored column spec and delegate the column-description message to
the row codec.  `codec` is the codec's outcome. -/
def DataWriter.Define (w : DataWriter) (columns : Option (List Nat))
    (codec : Option Nat) : StepResult :=
  if w.closed then ⟨some Err.closedWriter, w, []⟩
  else
    let w1 : DataWriter := { w with columns := columns }
    match codec with
    | none => ⟨none, w1, [Msg.colDesc]⟩
    | some e => ⟨some (Err.ext e), w1, []⟩

/-- `Row` of `writer.go`: refuse when closed, otherwise increment
`written` (a `uint64`, hence modulo 2^64) and delegate the row to the
codec.  Note the increment happens before the delegation, so it is
performed whether or not the codec succeeds. -/
def DataWriter.Row (w : DataWriter) (codec : Option Nat) : StepResult :=
  if w.closed then ⟨some Err.closedWriter, w, []⟩
  else
    let w1 : DataWriter := { w with written := (w.written + 1) % 2 ^ 64 }
    match codec with
    | none => ⟨none, w1, [Msg.dataRow]⟩
    | some e => ⟨some (Err.ext e), w1, []⟩

/-- Payload of the stub `CopyInResponse` built by `CopyIn`: one
overall-format byte 0, the 16-bit column count 3, and three 16-bit
format codes 0. -/
def copyInPayload : List Nat :=
  [0] ++ addInt16 3 ++ addInt16 0 ++ addInt16 0 ++ addInt16 0

/-- `CopyIn` of `writer.go`: refuse when closed, otherwise build the
stub `CopyInResponse` and hand it to the frame sink; `sink` is the
outcome of the sink's `End()`. -/
def DataWriter.CopyIn (w : DataWriter) (sink : Option Nat) : StepResult :=
  if w.closed then ⟨some Err.closedWriter, w, []⟩
  else
    match sink with
    | none => ⟨none, w, [Msg.frame MsgTag.serverCopyInResponse copyInPayload]⟩
    | some e => ⟨some (Err.ext e), w, []⟩

/-- `Empty` of `writer.go`: refuse when closed; refuse with
`ErrDataWritten` when rows were written; otherwise close the writer
(the deferred `close` on the success path) and return nil.  No
message is emitted. -/
def DataWriter.Empty (w : DataWriter) : StepResult :=
  if w.closed then ⟨some Err.closedWriter, w, []⟩
  else if w.written ≠ 0 then ⟨some Err.dataWritten, w, []⟩
  else ⟨none, { w with closed := true }, []⟩

/-- `Written` of `writer.go`: pure read of the counter. -/
def DataWriter.Written (w : DataWriter) : Nat :=
  w.written

/-- The `commandComplete` helper of `writer.go`: the description
bytes followed by a null terminator, framed under the
command-complete tag. -/
def commandCompletePayload (description : List Nat) : List Nat :=
  description ++ [0]

/-- `Complete` of `writer.go`: refuse when closed; when no rows were
written and a column spec is set, run the internal `Empty`
finalization (propagating its error, were there one); then close the
writer (deferred, so it runs even when the sink fails) and emit the
`CommandComplete` message.  `sink` is the outcome of the frame sink's
`End()` for that message. -/
def DataWriter.Complete (w : DataWriter) (description : List Nat)
    (sink : Option Nat) : StepResult :=
  if w.closed then ⟨some Err.closedWriter, w, []⟩
  else
    let inner : Option Err × DataWriter :=
      if w.written = 0 ∧ w.columns ≠ none then
        let r := w.Empty
        (r.err, r.state)
      else (none, w)
    match inner.1 with
    | some e => ⟨some e, inner.2, []⟩
    | none =>
      let w2 : DataWriter := { inner.2 with closed := true }
      match sink with
      | none => ⟨none, w2, [Msg.frame MsgTag.serverCommandComplete
          (commandCompletePayload description)]⟩
      | some e => ⟨some (Err.ext e), w2, []⟩

/-- One operation on a writer, together with the oracle outcomes of
the collaborators it consults. -/
inductive Op where
  | define (columns : Option (List Nat)) (codec : Option Nat)
  | row (codec : Option Nat)
  | copyIn (sink : Option Nat)
  | empty
  | complete (description : List Nat) (sink : Option Nat)
  deriving DecidableEq, Repr

/-- Dispatch one operation. -/
def step (w : DataWriter) : Op → StepResult
  | Op.define columns codec => w.Define columns codec
  | Op.row codec => w.Row codec
  | Op.copyIn sink => w.CopyIn sink
  | Op.empty => w.Empty
  | Op.complete description sink => w.Complete description sink

/-- Run a sequence of operations, collecting each call's returned
error, the final state, and the concatenated outgoing messages. -/
def runOps : DataWriter → List Op → List (Option Err) × DataWriter × List Msg
  | w, [] => ([], w, [])
  | w, op :: ops =>
    let r := step w op
    let rest := runOps r.state ops
    (r.err :: rest.1, rest.2.1, r.out ++ rest.2.2)

/-- The two terminal operations: `Empty` and `Complete`. -/
def isTerminal : Op → Bool
  | Op.empty => true
  | Op.complete _ _ => true
  | _ => false

/-- Row operations, for counting. -/
def isRowOp : Op → Bool
  | Op.row _ => true
  | _ => false

/-- Number of `Row` calls in a run that passed the open check, read
off from the operations and their paired results: a row call was
accepted exactly when it did not return the writer-closed error. -/
def acceptedRows : List Op → List (Option Err) → Nat
  | [], _ => 0
  | _ :: _, [] => 0
  | op :: ops, r :: rs =>
    (if isRowOp op ∧ r ≠ some Err.closedWriter then 1 else 0) + acceptedRows ops rs

-- Sanity checks on concrete runs.
example :
    (runOps (NewDataWriter (some [1, 2]) []) [Op.row none, Op.row none]).2.1.Written = 2 := by
  decide

example :
    ((NewDataWriter (some [1]) []).Complete [83] none).out =
      [Msg.frame MsgTag.serverCommandComplete [83, 0]] := by
  decide

/-! ## Helper lemmas -/

/-- On a closed writer every operation returns the writer-closed
error, leaves the state untouched and emits nothing. -/
theorem step_of_closed (w : DataWriter) (op : Op) (h : w.closed = true) :
    step w op = ⟨some Err.closedWriter, w, []⟩ := by
  cases op <;>
    simp [step, DataWriter.Define, DataWriter.Row, DataWriter.CopyIn,
      DataWriter.Empty, DataWriter.Complete, h]

/-- A run started on a closed writer rejects every operation, never
changes the state and emits nothing. -/
theorem runOps_of_closed (w : DataWriter) (ops : List Op) (h : w.closed = true) :
    runOps w ops = (ops.map fun _ => some Err.closedWriter, w, []) := by
  induction ops with
  | nil => simp [runOps]
  | cons op ops ih => simp [runOps, step_of_closed w op h, ih]

/-- A successful terminal operation (`Empty` or `Complete`) leaves the
writer closed. -/
theorem terminal_success_closed (w : DataWriter) (op : Op) (ht : isTerminal op = true)
    (hs : (step w op).err = none) : (step w op).state.closed = true := by
  cases op with
  | define columns codec => simp [isTerminal] at ht
  | row codec => simp [isTerminal] at ht
  | copyIn sink => simp [isTerminal] at ht
  | empty =>
    by_cases hc : w.closed
    · simp [step, DataWriter.Empty, hc] at hs
    · by_cases hw : w.written = 0
      · simp [step, DataWriter.Empty, hc, hw]
      · simp [step, DataWriter.Empty, hc, hw] at hs
  | complete description sink =>
    by_cases hc : w.closed
    · simp [step, DataWriter.Complete, hc] at hs
    · by_cases hg : w.written = 0 ∧ w.columns ≠ none
      · cases sink with
        | none => simp [step, DataWriter.Complete, hc, hg, DataWriter.Empty, hg.1]
        | some e => simp [step, DataWriter.Complete, hc, hg, DataWriter.Empty, hg.1] at hs
      · cases sink with
        | none => simp [step, DataWriter.Complete, hc, hg]
        | some e => simp [step, DataWriter.Complete, hc, hg] at hs

/-! ## Claim theorems -/

/-- C1: once `Empty` or `Complete` succeeds, every subsequent call to
`Row`, `Empty`, `Complete`, `CopyIn`, or `Define` returns the
writer-closed error and emits nothing; in particular a second
`Complete` call produces no second `CommandComplete` message. -/
theorem terminal_success_absorbing (w : DataWriter) (t : Op) (post : List Op)
    (ht : isTerminal t = true) (hs : (step w t).err = none) :
    runOps (step w t).state post =
      (post.map fun _ => some Err.closedWriter, (step w t).state, []) :=
  runOps_of_closed _ post (terminal_success_closed w t ht hs)

/-- C1 witness: after a successful `Empty` on a fresh writer, a
`Complete` call and a `Row` call both return writer-closed and emit
no message. -/
theorem terminal_success_absorbing_witness :
    runOps (step (NewDataWriter none []) Op.empty).state
        [Op.complete [83] none, Op.row none] =
      ([some Err.closedWriter, some Err.closedWriter],
        (step (NewDataWriter none []) Op.empty).state, []) :=
  terminal_success_absorbing (NewDataWriter none []) Op.empty
    [Op.complete [83] none, Op.row none] (by decide) (by decide)

/-- What one operation does to `written`: a `Row` call that passed
the open check bumps the counter modulo 2^64 (whether or not the
codec succeeded); every other situation leaves it untouched. -/
theorem step_written (w : DataWriter) (op : Op) :
    (step w op).state.written =
      if isRowOp op ∧ (step w op).err ≠ some Err.closedWriter
      then (w.written + 1) % 2 ^ 64 else w.written := by
  cases op with
  | define columns codec =>
    by_cases hc : w.closed
    · simp [step, DataWriter.Define, hc, isRowOp]
    · cases codec <;> simp [step, DataWriter.Define, hc, isRowOp]
  | row codec =>
    by_cases hc : w.closed
    · simp [step, DataWriter.Row, hc, isRowOp]
    · cases codec <;> simp [step, DataWriter.Row, hc, isRowOp]
  | copyIn sink =>
    by_cases hc : w.closed
    · simp [step, DataWriter.CopyIn, hc, isRowOp]
    · cases sink <;> simp [step, DataWriter.CopyIn, hc, isRowOp]
  | empty =>
    by_cases hc : w.closed
    · simp [step, DataWriter.Empty, hc, isRowOp]
    · by_cases hw : w.written = 0 <;> simp [step, DataWriter.Empty, hc, hw, isRowOp]
  | complete description sink =>
    by_cases hc : w.closed
    · simp [step, DataWriter.Complete, hc, isRowOp]
    · by_cases hg : w.written = 0 ∧ w.columns ≠ none
      · cases sink <;>
          simp [step, DataWriter.Complete, hc, hg, DataWriter.Empty, hg.1, isRowOp]
      · cases sink <;> simp [step, DataWriter.Complete, hc, hg, isRowOp]

/-- The counter stays below 2^64 (the `uint64` range). -/
theorem step_written_lt (w : DataWriter) (op : Op) (hw : w.written < 2 ^ 64) :
    (step w op).state.written < 2 ^ 64 := by
  rw [step_written]
  split
  · exact Nat.mod_lt _ (by norm_num)
  · exact hw

/-- Final counter value of a run: the initial value plus one per
accepted `Row` call, modulo 2^64. -/
theorem runOps_written (w : DataWriter) (ops : List Op) (hw : w.written < 2 ^ 64) :
    (runOps w ops).2.1.written =
      (w.written + acceptedRows ops (runOps w ops).1) % 2 ^ 64 := by
  induction ops generalizing w with
  | nil =>
    simp only [runOps, acceptedRows, Nat.add_zero]
    exact (Nat.mod_eq_of_lt hw).symm
  | cons op ops ih =>
    have hrec := ih (step w op).state (step_written_lt w op hw)
    simp only [runOps, acceptedRows]
    rw [hrec, step_written]
    by_cases h : isRowOp op ∧ (step w op).err ≠ some Err.closedWriter
    · rw [if_pos h, if_pos h, Nat.mod_add_mod, Nat.add_assoc]
    · rw [if_neg h, if_neg h, Nat.zero_add]

/-- C2 counterexample: on a fresh open writer, a `Row` call whose
codec delegation fails (it returns a codec error, not nil) still
changes the count reported by `Written` from 0 to 1, contradicting
the claim that only successful `Row` calls are counted. -/
theorem row_codec_failure_increments_written :
    ((NewDataWriter (some [1]) []).Row (some 0)).err = some (Err.ext 0) ∧
    (NewDataWriter (some [1]) []).Written = 0 ∧
    ((NewDataWriter (some [1]) []).Row (some 0)).state.Written = 1 := by
  decide

/-- C2 amended: `Written()` returns the number of `Row` calls that
passed the open check (made before the writer closed), modulo 2^64,
whether or not the codec delegation succeeded; the counter is touched
by no other operation.  The increment precedes the codec call in the
source, so a failed delegation still counts. -/
theorem written_counts_accepted_rows (columns : Option (List Nat))
    (formats : List Nat) (ops : List Op) :
    (runOps (NewDataWriter columns formats) ops).2.1.Written =
      acceptedRows ops (runOps (NewDataWriter columns formats) ops).1 % 2 ^ 64 := by
  have h := runOps_written (NewDataWriter columns formats) ops (by simp [NewDataWriter])
  simpa [NewDataWriter, DataWriter.Written] using h

/-- C3: `Empty` returns the data-already-written error exactly when
the writer is open and `written > 0`; when closed it returns the
writer-closed error (the closed check comes first); when open with
`written = 0` it succeeds and closes the writer. -/
theorem empty_error_characterization (w : DataWriter) :
    (w.Empty.err = some Err.dataWritten ↔ w.closed = false ∧ 0 < w.written) ∧
    (w.closed = true → w.Empty.err = some Err.closedWriter) ∧
    (w.closed = false → w.written = 0 →
      w.Empty.err = none ∧ w.Empty.state.closed = true) := by
  by_cases hc : w.closed <;> by_cases hw : w.written = 0 <;>
    simp [DataWriter.Empty, hc, hw, Nat.pos_of_ne_zero]

/-- C3 witness: the characterization applied to a fresh writer after
one accepted row: `Empty` then fails with data-already-written. -/
theorem empty_error_characterization_witness :
    (((NewDataWriter (some [1]) []).Row none).state.Empty.err = some Err.dataWritten ↔
      ((NewDataWriter (some [1]) []).Row none).state.closed = false ∧
        0 < ((NewDataWriter (some [1]) []).Row none).state.written) ∧
    (((NewDataWriter (some [1]) []).Row none).state.closed = true →
      ((NewDataWriter (some [1]) []).Row none).state.Empty.err = some Err.closedWriter) ∧
    (((NewDataWriter (some [1]) []).Row none).state.closed = false →
      ((NewDataWriter (some [1]) []).Row none).state.written = 0 →
      ((NewDataWriter (some [1]) []).Row none).state.Empty.err = none ∧
        ((NewDataWriter (some [1]) []).Row none).state.Empty.state.closed = true) :=
  empty_error_characterization ((NewDataWriter (some [1]) []).Row none).state

/-- C4: for an open writer with a column spec set and no rows
written, `Complete` succeeds (sink healthy), leaves the counter at 0,
ends closed, and emits exactly one `CommandComplete` message carrying
the given description; the internal zero-row finalization does not
prevent that message. -/
theorem complete_zero_rows (w : DataWriter) (description : List Nat)
    (hc : w.closed = false) (hcols : w.columns ≠ none) (hw : w.written = 0) :
    (w.Complete description none).err = none ∧
    (w.Complete description none).state.Written = 0 ∧
    (w.Complete description none).state.closed = true ∧
    (w.Complete description none).out =
      [Msg.frame MsgTag.serverCommandComplete (commandCompletePayload description)] := by
  simp [DataWriter.Complete, DataWriter.Empty, DataWriter.Written, hc, hcols, hw]

/-- C4 witness: the zero-row `Complete` behaviour on a fresh writer
whose columns are declared, with description bytes "S0". -/
theorem complete_zero_rows_witness :
    ((NewDataWriter (some [1, 2]) []).Complete [83, 48] none).err = none ∧
    ((NewDataWriter (some [1, 2]) []).Complete [83, 48] none).state.Written = 0 ∧
    ((NewDataWriter (some [1, 2]) []).Complete [83, 48] none).state.closed = true ∧
    ((NewDataWriter (some [1, 2]) []).Complete [83, 48] none).out =
      [Msg.frame MsgTag.serverCommandComplete (commandCompletePayload [83, 48])] :=
  complete_zero_rows (NewDataWriter (some [1, 2]) []) [83, 48]
    (by decide) (by decide) (by decide)

/-- C5: the internal `Empty` call inside `Complete` cannot fail: on
an open writer with `written = 0` the `Empty` finalization returns
success, and consequently `Complete` on any open writer returns
exactly the frame sink's outcome — never writer-closed and never
data-already-written. -/
theorem complete_internal_empty_infallible (w : DataWriter) (description : List Nat)
    (sink : Option Nat) (hc : w.closed = false) :
    (w.written = 0 → w.Empty.err = none) ∧
    (w.Complete description sink).err = sink.map Err.ext := by
  constructor
  · intro hw
    simp [DataWriter.Empty, hc, hw]
  · by_cases hg : w.written = 0 ∧ w.columns ≠ none
    · cases sink <;>
        simp [DataWriter.Complete, DataWriter.Empty, hc, hg, hg.1]
    · cases sink <;> simp [DataWriter.Complete, hc, hg]

/-- C5 witness: on a fresh writer with declared columns, the internal
finalization succeeds and `Complete` fails only when the sink does. -/
theorem complete_internal_empty_infallible_witness :
    ((NewDataWriter (some [1]) []).written = 0 →
      (NewDataWriter (some [1]) []).Empty.err = none) ∧
    ((NewDataWriter (some [1]) []).Complete [83] (some 7)).err =
      (some 7 : Option Nat).map Err.ext :=
  complete_internal_empty_infallible (NewDataWriter (some [1]) []) [83] (some 7)
    (by decide)

/-- C6: every successful `Complete description` call emits exactly
one `CommandComplete` message, bit-exact: the command-complete tag,
the description bytes, a trailing null terminator, in the frame
sink's envelope. -/
theorem complete_success_bit_exact (w : DataWriter) (description : List Nat)
    (sink : Option Nat) (hs : (w.Complete description sink).err = none) :
    (w.Complete description sink).out =
      [Msg.frame MsgTag.serverCommandComplete (description ++ [0])] := by
  by_cases hc : w.closed
  · simp [DataWriter.Complete, hc] at hs
  · by_cases hg : w.written = 0 ∧ w.columns ≠ none
    · cases sink with
      | none =>
        simp [DataWriter.Complete, DataWriter.Empty, hc, hg, hg.1,
          commandCompletePayload]
      | some e =>
        simp [DataWriter.Complete, DataWriter.Empty, hc, hg, hg.1] at hs
    · cases sink with
      | none => simp [DataWriter.Complete, hc, hg, commandCompletePayload]
      | some e => simp [DataWriter.Complete, hc, hg] at hs

/-- C6 witness: a successful `Complete` with description bytes "S1"
after one row, on a fresh writer. -/
theorem complete_success_bit_exact_witness :
    (((NewDataWriter (some [1]) []).Row none).state.Complete [83, 49] none).out =
      [Msg.frame MsgTag.serverCommandComplete ([83, 49] ++ [0])] :=
  complete_success_bit_exact ((NewDataWriter (some [1]) []).Row none).state
    [83, 49] none (by decide)

/-- C7: `CopyIn` on an open writer emits exactly one `CopyInResponse`
message, bit-exact: overall-format byte 0, 16-bit column count 3, and
three 16-bit format codes 0; and whatever the sink's outcome, the
state (`written` and `closed` included) is unchanged. -/
theorem copyIn_stub_bit_exact (w : DataWriter) (hc : w.closed = false) :
    (w.CopyIn none).err = none ∧
    (w.CopyIn none).out =
      [Msg.frame MsgTag.serverCopyInResponse [0, 0, 3, 0, 0, 0, 0, 0, 0]] ∧
    (∀ sink : Option Nat, (w.CopyIn sink).state = w) := by
  refine ⟨?_, ?_, ?_⟩
  · simp [DataWriter.CopyIn, hc]
  · simp [DataWriter.CopyIn, hc, copyInPayload, addInt16]
  · intro sink
    cases sink <;> simp [DataWriter.CopyIn, hc]

/-- C7 witness: `CopyIn` on a fresh writer that already wrote one
row. -/
theorem copyIn_stub_bit_exact_witness :
    ((((NewDataWriter (some [1]) []).Row none).state.CopyIn none).err = none) ∧
    ((((NewDataWriter (some [1]) []).Row none).state.CopyIn none).out =
      [Msg.frame MsgTag.serverCopyInResponse [0, 0, 3, 0, 0, 0, 0, 0, 0]]) ∧
    (∀ sink : Option Nat,
      (((NewDataWriter (some [1]) []).Row none).state.CopyIn sink).state =
        ((NewDataWriter (some [1]) []).Row none).state) :=
  copyIn_stub_bit_exact ((NewDataWriter (some [1]) []).Row none).state (by decide)

/-- C8: `closed` is monotone — once true it stays true (so it flips
false to true at most once and is never reset) — and once the writer
is closed no operation changes the state at all, the `written`
counter in particular. -/
theorem closed_monotone_written_frozen (w : DataWriter) (op : Op) (ops : List Op) :
    (w.closed = true → (step w op).state.closed = true) ∧
    (w.closed = true → (runOps w ops).2.1 = w) ∧
    (w.closed = true → (runOps w ops).2.1.written = w.written) := by
  refine ⟨fun h => ?_, fun h => ?_, fun h => ?_⟩
  · rw [step_of_closed w op h]; exact h
  · rw [runOps_of_closed w ops h]
  · rw [runOps_of_closed w ops h]

/-- C8 witness: the invariant applied to a writer just closed by
`Empty`, against a `Row` step and a run of one `Complete` and one
`Row`. -/
theorem closed_monotone_written_frozen_witness :
    (step ((NewDataWriter none []).Empty.state) (Op.row none)).state.closed = true ∧
    (runOps ((NewDataWriter none []).Empty.state)
      [Op.complete [83] none, Op.row none]).2.1 = (NewDataWriter none []).Empty.state ∧
    (runOps ((NewDataWriter none []).Empty.state)
      [Op.complete [83] none, Op.row none]).2.1.written =
        ((NewDataWriter none []).Empty.state).written :=
  ⟨(closed_monotone_written_frozen ((NewDataWriter none []).Empty.state)
      (Op.row none) [Op.complete [83] none, Op.row none]).1 (by decide),
   (closed_monotone_written_frozen ((NewDataWriter none []).Empty.state)
      (Op.row none) [Op.complete [83] none, Op.row none]).2.1 (by decide),
   (closed_monotone_written_frozen ((NewDataWriter none []).Empty.state)
      (Op.row none) [Op.complete [83] none, Op.row none]).2.2 (by decide)⟩

/-- C9: when the frame sink fails while `Complete` emits the
`CommandComplete` message, `Complete` returns that sink error, yet
the writer still ends closed (the deferred close is not rolled back):
every subsequent operation returns writer-closed and emits nothing,
while `Written` remains readable and unchanged. -/
theorem complete_sink_failure_still_closes (w : DataWriter) (description : List Nat)
    (e : Nat) (hc : w.closed = false) :
    (w.Complete description (some e)).err = some (Err.ext e) ∧
    (w.Complete description (some e)).state.closed = true ∧
    (∀ op : Op, step (w.Complete description (some e)).state op =
      ⟨some Err.closedWriter, (w.Complete description (some e)).state, []⟩) := by
  have herr : (w.Complete description (some e)).err = some (Err.ext e) := by
    by_cases hg : w.written = 0 ∧ w.columns ≠ none
    · simp [DataWriter.Complete, DataWriter.Empty, hc, hg, hg.1]
    · simp [DataWriter.Complete, hc, hg]
  have hclosed : (w.Complete description (some e)).state.closed = true := by
    by_cases hg : w.written = 0 ∧ w.columns ≠ none
    · simp [DataWriter.Complete, DataWriter.Empty, hc, hg, hg.1]
    · simp [DataWriter.Complete, hc, hg]
  exact ⟨herr, hclosed, fun op => step_of_closed _ op hclosed⟩

/-- C9 witness: a fresh writer with declared columns whose sink fails
during `Complete`; the subsequent `Empty` is rejected. -/
theorem complete_sink_failure_still_closes_witness :
    ((NewDataWriter (some [1]) []).Complete [83] (some 9)).err = some (Err.ext 9) ∧
    ((NewDataWriter (some [1]) []).Complete [83] (some 9)).state.closed = true ∧
    (∀ op : Op, step ((NewDataWriter (some [1]) []).Complete [83] (some 9)).state op =
      ⟨some Err.closedWriter,
        ((NewDataWriter (some [1]) []).Complete [83] (some 9)).state, []⟩) :=
  complete_sink_failure_still_closes (NewDataWriter (some [1]) []) [83] 9 (by decide)

/-- C10: `Define` on an open writer never fails of its own accord —
its result is exactly the codec's outcome, whatever the row count —
and it unconditionally overwrites the stored column spec and, when
the codec succeeds, emits the new column-description message. -/
theorem define_open_unconditional (w : DataWriter) (columns : Option (List Nat))
    (codec : Option Nat) (hc : w.closed = false) :
    (w.Define columns codec).err = codec.map Err.ext ∧
    (w.Define columns codec).state.columns = columns ∧
    (w.Define columns codec).state.written = w.written ∧
    (codec = none → (w.Define columns codec).out = [Msg.colDesc]) := by
  cases codec <;> simp [DataWriter.Define, hc]

/-- C10 witness: `Define` after five accepted rows still succeeds and
replaces the column spec. -/
theorem define_open_unconditional_witness :
    (((runOps (NewDataWriter (some [1]) [])
        [Op.row none, Op.row none, Op.row none, Op.row none, Op.row none]).2.1.Define
        (some [7, 8]) none).err = (none : Option Nat).map Err.ext) ∧
    (((runOps (NewDataWriter (some [1]) [])
        [Op.row none, Op.row none, Op.row none, Op.row none, Op.row none]).2.1.Define
        (some [7, 8]) none).state.columns = some [7, 8]) ∧
    (((runOps (NewDataWriter (some [1]) [])
        [Op.row none, Op.row none, Op.row none, Op.row none, Op.row none]).2.1.Define
        (some [7, 8]) none).state.written =
      (runOps (NewDataWriter (some [1]) [])
        [Op.row none, Op.row none, Op.row none, Op.row none, Op.row none]).2.1.written) ∧
    ((none : Option Nat) = none →
      ((runOps (NewDataWriter (some [1]) [])
        [Op.row none, Op.row none, Op.row none, Op.row none, Op.row none]).2.1.Define
        (some [7, 8]) none).out = [Msg.colDesc]) :=
  define_open_unconditional
    (runOps (NewDataWriter (some [1]) [])
      [Op.row none, Op.row none, Op.row none, Op.row none, Op.row none]).2.1
    (some [7, 8]) none (by decide)
